import Mathlib

/-!
Shallow embedding of the `emailer` package (src/emailer/config.py and
src/emailer/emailer.py) and proofs about its claims.

Text is modelled as `List Char`; Python dicts as insertion-ordered
association lists with in-place overwrite on key collision.
-/

set_option maxRecDepth 4096

/-- Python strings are modelled as lists of characters. -/
abbrev Str := List Char

/-- Shorthand turning a Lean string literal into the `Str` model. -/
def cs (s : String) : Str := s.data

/-- Python `str.strip()` (whitespace removal at both ends). -/
def pyStrip (s : Str) : Str :=
  ((s.dropWhile Char.isWhitespace).reverse.dropWhile Char.isWhitespace).reverse

/-- Python `str.lower()` (per-character lowering; ASCII suffices here). -/
def pyLower (s : Str) : Str := s.map Char.toLower

/-- Split at the first occurrence of `sep`, like Python `s.split(sep, 1)`
when `sep in s`; `none` when the separator does not occur. -/
def splitOnce (sep : Char) : Str → Option (Str × Str)
  | [] => none
  | c :: rest =>
    if c == sep then some ([], rest)
    else
      match splitOnce sep rest with
      | some (a, b) => some (c :: a, b)
      | none => none

/-- Value of a nonempty all-digit string, `none` otherwise. -/
def digitsVal : Str → Option Nat
  | [] => none
  | [c] => if c.isDigit then some (c.toNat - '0'.toNat) else none
  | c :: rest =>
    if c.isDigit then
      match digitsVal rest with
      | some n => some ((c.toNat - '0'.toNat) * 10 ^ rest.length + n)
      | none => none
    else none

/-- Python `int(s)` on a string: strips whitespace, accepts an optional
sign followed by digits, raises (here: `none`) otherwise.  (Underscore
digit separators are not modelled; no claim involves them.) -/
def pyInt (s : Str) : Option Int :=
  match pyStrip s with
  | '+' :: rest => (digitsVal rest).map Int.ofNat
  | '-' :: rest => (digitsVal rest).map (fun n => -(Int.ofNat n))
  | t => (digitsVal t).map Int.ofNat

/-- Configuration values: strings as loaded, or integers after the
`smtp_port` coercion (JSON may also supply integers directly). -/
inductive CVal where
  | s : Str → CVal
  | i : Int → CVal
deriving DecidableEq

/-- A configuration fragment: an insertion-ordered dict. -/
abbrev Frag := List (Str × CVal)

/-- Dict lookup (first — and in well-formed dicts only — binding). -/
def dictGet {α : Type} : List (Str × α) → Str → Option α
  | [], _ => none
  | (k, v) :: rest, key => if k = key then some v else dictGet rest key

/-- Last binding of a key, matching Python dict semantics when an
association list carries duplicate keys (the most recent write wins). -/
def dictGetLast {α : Type} : List (Str × α) → Str → Option α
  | [], _ => none
  | (k, v) :: rest, key =>
    match dictGetLast rest key with
    | some w => some w
    | none => if k = key then some v else none

/-- Python `d[k] = v`: overwrite in place if present, else append. -/
def dictSet {α : Type} : List (Str × α) → Str → α → List (Str × α)
  | [], k, v => [(k, v)]
  | (k', v') :: rest, k, v =>
    if k' = k then (k', v) :: rest else (k', v') :: dictSet rest k v

/-- Python `base.update(other)`: write every binding of `other`, in order. -/
def dictUpdate {α : Type} (base other : List (Str × α)) : List (Str × α) :=
  other.foldl (fun d kv => dictSet d kv.1 kv.2) base

/-- Python truthiness of an optional string (`None` and `""` are falsy). -/
def envOptStr (o : Option Str) : Option Str :=
  match o with
  | some v => if v.isEmpty then none else some v
  | none => none

/-- config.py `load_from_env`: reads the four prefixed variables from the
given environment, keeping truthy values and coercing `smtp_port` to an
integer (dropping it when non-numeric). -/
def load_from_env (env : Str → Option Str) (pre : Str) : Frag :=
  let c : Frag := []
  let c := match envOptStr (env (pre ++ cs "ADDRESS")) with
    | some v => dictSet c (cs "email") (.s v)
    | none => c
  let c := match envOptStr (env (pre ++ cs "PASSWORD")) with
    | some v => dictSet c (cs "password") (.s v)
    | none => c
  let c := match envOptStr (env (pre ++ cs "SMTP_SERVER")) with
    | some v => dictSet c (cs "smtp_server") (.s v)
    | none => c
  match envOptStr (env (pre ++ cs "SMTP_PORT")) with
  | some v =>
    match pyInt v with
    | some n => dictSet c (cs "smtp_port") (.i n)
    | none => c
  | none => c

/-- A JSON config file as seen by `load_from_json`, covering exactly the
outcomes on which the loader returns normally: absent, unreadable or
unparsable in a way its except clause catches (IOError or
json.JSONDecodeError), or a parsed object.  The remaining real outcome —
bytes that fail to decode, raising UnicodeDecodeError past the except
clause — is modelled at the `load_from_json_run` level. -/
inductive JsonSource where
  | missing
  | invalid
  | obj : Frag → JsonSource

/-- config.py `load_from_json`: empty fragment on a missing or invalid
file; otherwise the object, with a string-typed `smtp_port` coerced to an
integer when numeric (kept as the string otherwise). -/
def load_from_json : JsonSource → Frag
  | .missing => []
  | .invalid => []
  | .obj o =>
    match dictGet o (cs "smtp_port") with
    | some (.s v) =>
      match pyInt v with
      | some n => dictSet o (cs "smtp_port") (.i n)
      | none => o
    | _ => o

/-- Python `int(x)` on a config value: identity on integers, string
parse otherwise. -/
def pyIntOfCVal : CVal → Option Int
  | .i n => some n
  | .s v => pyInt v

/-- The `smtp_port`-to-int coercion step shared by the INI and dotenv
loaders: `try: config["smtp_port"] = int(config["smtp_port"]) except: pass`. -/
def coercePort (c : Frag) : Frag :=
  match dictGet c (cs "smtp_port") with
  | none => c
  | some v =>
    match pyIntOfCVal v with
    | some n => dictSet c (cs "smtp_port") (.i n)
    | none => c

/-- An INI config file as seen by `load_from_ini`, covering exactly the
outcomes on which the loader returns normally: absent, unparsable in a
way its except clause catches (configparser.Error), or a list of sections
each holding string key/value pairs.  An undecodable file, whose
UnicodeDecodeError escapes the except clause, is modelled at the
`load_from_ini_run` level. -/
inductive IniSource where
  | missing
  | invalid
  | sections : List (Str × List (Str × Str)) → IniSource

/-- config.py `load_from_ini`: empty fragment on a missing file, parse
error or missing section; otherwise the section's items (keys lower-cased
by configparser) with the `smtp_port` coercion applied. -/
def load_from_ini (src : IniSource) (sec : Str) : Frag :=
  match src with
  | .missing => []
  | .invalid => []
  | .sections ss =>
    match dictGet ss sec with
    | none => []
    | some items =>
      coercePort (items.foldl (fun c kv => dictSet c (pyLower kv.1) (.s kv.2)) [])

/-- A dotenv file as seen by `load_from_dotenv`, covering exactly the
outcomes on which the loader returns normally: absent, unreadable in a
way its except clause catches (IOError), or a list of raw lines.  An
undecodable file, whose UnicodeDecodeError escapes the except clause, is
modelled at the `load_from_dotenv_run` level. -/
inductive DotenvSource where
  | missing
  | ioError
  | lines : List Str → DotenvSource

/-- Key handling inside the `load_from_dotenv` line loop: store a key
bearing the prefix with the prefix stripped, the rest lower-cased and
`address` renamed to `email`; ignore other keys. -/
def dotenvKey (pre : Str) (c : Frag) (k v : Str) : Frag :=
  if pre.isPrefixOf k then
    let ck := pyLower (k.drop pre.length)
    let ck := if ck = cs "address" then cs "email" else ck
    dictSet c ck (.s v)
  else c

/-- One iteration of the `load_from_dotenv` line loop: strip, skip blanks
and `#` comments, split at the first `=` (else the first `:`), then store
the key/value pair when the key bears the prefix. -/
def dotenvStep (pre : Str) (c : Frag) (raw : Str) : Frag :=
  let line := pyStrip raw
  if line.isEmpty then c
  else if line.head? = some '#' then c
  else
    match splitOnce '=' line with
    | some (k, v) => dotenvKey pre c k v
    | none =>
      match splitOnce ':' line with
      | some (k, v) => dotenvKey pre c k v
      | none => c

/-- config.py `load_from_dotenv`: empty fragment on a missing or
unreadable file; otherwise the line loop followed by the `smtp_port`
coercion. -/
def load_from_dotenv (src : DotenvSource) (pre : Str) : Frag :=
  match src with
  | .missing => []
  | .ioError => []
  | .lines ls => coercePort (ls.foldl (dotenvStep pre) [])

/-- The four optional configuration sources handed to `get_config`
(`none` models an omitted path / an environment lookup). -/
structure ConfigSources where
  env : Str → Option Str
  jsonSrc : Option JsonSource
  iniSrc : Option IniSource
  dotenvSrc : Option DotenvSource

/-- config.py `get_config`: update an empty dict with the INI fragment,
then dotenv, then JSON, then the environment fragment. -/
def get_config (srcs : ConfigSources) (pre : Str) (sec : Str) : Frag :=
  let c : Frag := []
  let c := match srcs.iniSrc with
    | some s => dictUpdate c (load_from_ini s sec)
    | none => c
  let c := match srcs.dotenvSrc with
    | some s => dictUpdate c (load_from_dotenv s pre)
    | none => c
  let c := match srcs.jsonSrc with
    | some s => dictUpdate c (load_from_json s)
    | none => c
  dictUpdate c (load_from_env srcs.env pre)

/-- A `Union[str, List[str]]` argument of `send_email`. -/
inductive StrArg where
  | one : Str → StrArg
  | many : List Str → StrArg
deriving DecidableEq

/-- Promotion of a singleton string argument to a list
(`if isinstance(x, str): x = [x]`). -/
def strArgList : StrArg → List Str
  | .one s => [s]
  | .many l => l

/-- Python truthiness test `if cc:` on an optional str-or-list argument
combined with the singleton promotion: `some l` with the promoted list
when the argument is truthy, `none` otherwise. -/
def activeList : Option StrArg → Option (List Str)
  | none => none
  | some (.one s) => if s.isEmpty then none else some [s]
  | some (.many l) => if l.isEmpty then none else some l

/-- `os.path.basename`: the part of a path after the last `/`. -/
def basename (p : Str) : Str :=
  ((p.reverse.takeWhile (fun c => c ≠ '/')).reverse)

/-- `', '.join(l)`. -/
def joinComma (l : List Str) : Str := List.intercalate (cs ", ") l

/-- A part of the multipart message: the `MIMEText` body (with subtype
`plain` or `html`) or a `MIMEApplication` attachment carrying the file
bytes, its `Name`, and its `Content-Disposition` header value. -/
inductive MimePart where
  | text : Str → Str → MimePart
  | application : Str → Str → Str → MimePart
deriving DecidableEq

/-- The `MIMEMultipart` message: ordered headers and attached parts. -/
structure MimeMessage where
  headers : List (Str × Str)
  parts : List MimePart
deriving DecidableEq

/-- The pieces of the filesystem `send_email` consults — `os.path.isfile`
and reading a file's bytes — restricted to filesystems on which every
read of an existing file succeeds.  Reads that themselves raise (for
example PermissionError on an existing unreadable file, an exception the
`try` block of the source does not cover) are modelled by `FallibleFS`
and `send_email_run`. -/
structure FileSystem where
  isfile : Str → Bool
  readBytes : Str → Str

/-- The attachment loop of `send_email`: paths that exist become
`MIMEApplication` parts named by their base filename; missing paths are
skipped. -/
def attachLoop (fs : FileSystem) : List Str → List MimePart
  | [] => []
  | p :: rest =>
    if fs.isfile p then
      MimePart.application (fs.readBytes p) (basename p)
          (cs "attachment; filename=\"" ++ basename p ++ cs "\"")
        :: attachLoop fs rest
    else attachLoop fs rest

/-- Network operations issued by `send_email` against smtplib, in order:
`SMTP_SSL(...)` connect, `SMTP(...)` connect, `ehlo()`, `starttls()`,
`login(...)`, `sendmail(...)`. -/
inductive SmtpOp where
  | connectSSL : Str → Int → SmtpOp
  | connect : Str → Int → SmtpOp
  | ehlo : SmtpOp
  | starttls : SmtpOp
  | login : Str → Str → SmtpOp
  | sendmail : Str → List Str → MimeMessage → SmtpOp
deriving DecidableEq

/-- Exceptions an smtplib operation may raise, as distinguished by the
`except` clauses of `send_email`. -/
inductive SmtpExc where
  | authError : Str → SmtpExc
  | disconnected : Str → SmtpExc
  | generic : Str → SmtpExc
deriving DecidableEq

/-- The lines printed by the `except` clause handling a given exception. -/
def errorLines : SmtpExc → List Str
  | .authError m =>
    [cs "Error sending email: Authentication failed. Please verify email/password or app-specific password.",
     cs "SMTPAuthenticationError: " ++ m]
  | .disconnected m =>
    [cs "Error sending email: Connection unexpectedly closed by the server. This often happens when using STARTTLS on port 465. Try port 465 with SSL or port 587 with STARTTLS.",
     cs "SMTPServerDisconnected: " ++ m]
  | .generic m => [cs "Error sending email: " ++ m]

/-- Run the planned operations against a transport behaviour: each
operation either succeeds (`none`) or raises, aborting the rest.  Returns
the operations actually attempted and the exception, if any. -/
def runOps (beh : SmtpOp → Option SmtpExc) : List SmtpOp → List SmtpOp × Option SmtpExc
  | [] => ([], none)
  | op :: rest =>
    match beh op with
    | some e => ([op], some e)
    | none =>
      let tr := runOps beh rest
      (op :: tr.1, tr.2)

/-- The stored credentials and SMTP settings of an `EmailSender`. -/
structure EmailSender where
  email : Str
  password : Str
  smtp_server : Str
  smtp_port : Int
deriving DecidableEq

/-- Everything observable about one `send_email` call: the boolean
result, the built MIME message, the final value of the `to_emails` list
variable (the caller's own list object when a list was passed, since
`extend` mutates in place) which is also the SMTP envelope, the network
operations attempted, and the error lines printed. -/
structure SendOutcome where
  result : Bool
  message : MimeMessage
  toEmailsFinal : List Str
  attempted : List SmtpOp
  printed : List Str
deriving DecidableEq

/-- emailer.py `EmailSender.send_email`, faithfully following the source:
normalise `to_emails`; set `From`, `To` (comma-joined primaries) and
`Subject`; on truthy `cc` set the `Cc` header and extend `to_emails`; on
truthy `bcc` extend `to_emails` only; attach the body as `html`/`plain`
text; attach each existing attachment file, skipping missing paths; then
run the SSL session when the port is 465 and the STARTTLS session
otherwise, catching every exception as a `False` result with printed
error lines. -/
def send_email (self : EmailSender) (fs : FileSystem) (beh : SmtpOp → Option SmtpExc)
    (to_emails : StrArg) (subject : Str) (body : Str) (html : Bool)
    (attachments : Option (List Str)) (cc : Option StrArg) (bcc : Option StrArg) :
    SendOutcome :=
  let to0 := strArgList to_emails
  let hs := [(cs "From", self.email), (cs "To", joinComma to0), (cs "Subject", subject)]
  let hs1 := match activeList cc with
    | some ccL => hs ++ [(cs "Cc", joinComma ccL)]
    | none => hs
  let to1 := match activeList cc with
    | some ccL => to0 ++ ccL
    | none => to0
  let to2 := match activeList bcc with
    | some bccL => to1 ++ bccL
    | none => to1
  let bodyPart := if html then MimePart.text body (cs "html") else MimePart.text body (cs "plain")
  let attParts := match attachments with
    | some atts => attachLoop fs atts
    | none => []
  let msg : MimeMessage := { headers := hs1, parts := bodyPart :: attParts }
  let ops :=
    if self.smtp_port = 465 then
      [SmtpOp.connectSSL self.smtp_server self.smtp_port,
       SmtpOp.login self.email self.password,
       SmtpOp.sendmail self.email to2 msg]
    else
      [SmtpOp.connect self.smtp_server self.smtp_port,
       SmtpOp.ehlo, SmtpOp.starttls, SmtpOp.ehlo,
       SmtpOp.login self.email self.password,
       SmtpOp.sendmail self.email to2 msg]
  let tr := runOps beh ops
  let fin := match tr.2 with
    | none => (true, ([] : List Str))
    | some e => (false, errorLines e)
  { result := fin.1, message := msg, toEmailsFinal := to2, attempted := tr.1,
    printed := fin.2 }

/-- Python `s.replace(old, new)` for a nonempty `old` given as head and
tail: leftmost, non-overlapping occurrences are replaced.  The fuel
argument only forces structural recursion; any fuel at least the length
of the scanned string gives the replace semantics, and each recursive
call consumes at least one character together with one unit of fuel. -/
def replaceFuel (p : Char) (ps rep : Str) : Nat → Str → Str
  | 0, s => s
  | _ + 1, [] => []
  | fuel + 1, c :: rest =>
    if (p :: ps).isPrefixOf (c :: rest) then
      rep ++ replaceFuel p ps rep fuel ((c :: rest).drop (p :: ps).length)
    else c :: replaceFuel p ps rep fuel rest

/-- Python `s.replace(old, new)`.  (The empty-pattern case, which the
template code never produces since its patterns contain the braces, is
mapped to the identity.) -/
def replaceAll (s pat rep : Str) : Str :=
  match pat with
  | [] => s
  | p :: ps => replaceFuel p ps rep s.length s

/-- The template-substitution loop of `send_template_email`:
`body = body.replace("{" + name + "}", value)` over the variables in
order. -/
def substituteVars (template : Str) (vars : List (Str × Str)) : Str :=
  vars.foldl (fun b kv => replaceAll b (cs "\x7b" ++ kv.1 ++ cs "\x7d") kv.2) template

/-- emailer.py `EmailSender.send_template_email`: substitute the template
variables into the template, then delegate to `send_email`. -/
def send_template_email (self : EmailSender) (fs : FileSystem)
    (beh : SmtpOp → Option SmtpExc) (to_emails : StrArg) (subject : Str)
    (template : Str) (template_vars : List (Str × Str)) (html : Bool)
    (attachments : Option (List Str)) (cc : Option StrArg) (bcc : Option StrArg) :
    SendOutcome :=
  let body := substituteVars template template_vars
  send_email self fs beh to_emails subject body html attachments cc bcc

/-- Does `pat` occur as a contiguous substring of `s`? -/
def occursIn (pat : Str) : Str → Bool
  | [] => pat.isEmpty
  | c :: rest => pat.isPrefixOf (c :: rest) || occursIn pat rest

/-- First-defined choice between two optional values. -/
def optOr {α : Type} : Option α → Option α → Option α
  | some v, _ => some v
  | none, b => b

/-- The fragment contributed by an optional source: empty when the source
is omitted. -/
def fragOf {α : Type} (o : Option α) (load : α → Frag) : Frag :=
  match o with
  | some s => load s
  | none => []

/-- A sample configured sender on the implicit-SSL port 465. -/
def sampleSender465 : EmailSender :=
  { email := cs "a@b.c", password := cs "pw",
    smtp_server := cs "smtp.example.com", smtp_port := 465 }

/-- A sample configured sender on the default STARTTLS port 587. -/
def sampleSender587 : EmailSender :=
  { email := cs "a@b.c", password := cs "pw",
    smtp_server := cs "smtp.example.com", smtp_port := 587 }

/-- A filesystem on which no path exists. -/
def emptyFS : FileSystem := { isfile := fun _ => false, readBytes := fun _ => [] }

/-- A transport behaviour on which every operation succeeds. -/
def behOk : SmtpOp → Option SmtpExc := fun _ => none

/-- A transport behaviour whose first operation raises a generic error. -/
def behFail : SmtpOp → Option SmtpExc := fun _ => some (.generic (cs "boom"))

/-- The exception that escapes the configuration loaders: a
UnicodeDecodeError raised while reading or parsing a file whose bytes do
not decode, which none of the loaders' except clauses
(json.JSONDecodeError, IOError, configparser.Error) catches. -/
inductive DecodeErr where
  | unicodeDecodeError
deriving DecidableEq

/-- The open/read/decode phase of a file-based loader: either the file's
bytes decode and the loader proceeds on the decoded outcome, or the file
exists but its bytes do not decode and UnicodeDecodeError is raised. -/
inductive FileAttempt (α : Type) where
  | undecodable
  | readable : α → FileAttempt α

/-- config.py `load_from_json` including its escape path: on a decodable
file the loader returns its fragment normally; on an undecodable file the
UnicodeDecodeError raised by the read escapes the
`except (json.JSONDecodeError, IOError)` clause. -/
def load_from_json_run : FileAttempt JsonSource → Except DecodeErr Frag
  | .undecodable => .error .unicodeDecodeError
  | .readable src => .ok (load_from_json src)

/-- config.py `load_from_ini` including its escape path: on a decodable
file the loader returns its fragment normally; on an undecodable file the
UnicodeDecodeError raised inside `parser.read` escapes the
`except configparser.Error` clause. -/
def load_from_ini_run (f : FileAttempt IniSource) (sec : Str) : Except DecodeErr Frag :=
  match f with
  | .undecodable => .error .unicodeDecodeError
  | .readable src => .ok (load_from_ini src sec)

/-- config.py `load_from_dotenv` including its escape path: on a
decodable file the loader returns its fragment normally; on an
undecodable file the UnicodeDecodeError raised while iterating the lines
escapes the `except IOError` clause. -/
def load_from_dotenv_run (f : FileAttempt DotenvSource) (pre : Str) : Except DecodeErr Frag :=
  match f with
  | .undecodable => .error .unicodeDecodeError
  | .readable src => .ok (load_from_dotenv src pre)

/-- An exception raised by `open`/`read` on an existing file, for example
PermissionError; in `send_email` these occur in the attachment loop,
which sits before the `try` block, so they escape the call. -/
inductive OsErr where
  | osError : Str → OsErr
deriving DecidableEq

/-- A filesystem on which reading an existing file may itself raise:
`readBytes` returns the bytes or the raised exception. -/
structure FallibleFS where
  isfile : Str → Bool
  readBytes : Str → Except OsErr Str

/-- The attachment loop of `send_email` over a fallible filesystem:
missing paths are skipped, and the first failing read of an existing path
raises, aborting the loop. -/
def attachLoopRun (fs : FallibleFS) : List Str → Except OsErr (List MimePart)
  | [] => .ok []
  | p :: rest =>
    if fs.isfile p then
      match fs.readBytes p with
      | .error e => .error e
      | .ok data =>
        match attachLoopRun fs rest with
        | .error e => .error e
        | .ok parts =>
          .ok (MimePart.application data (basename p)
            (cs "attachment; filename=\"" ++ basename p ++ cs "\"") :: parts)
    else attachLoopRun fs rest

/-- The whole attachment phase of `send_email`: nothing to attach when no
list is given, the loop otherwise. -/
def attachPhase (fs : FallibleFS) : Option (List Str) → Except OsErr (List MimePart)
  | some atts => attachLoopRun fs atts
  | none => .ok []

/-- emailer.py `EmailSender.send_email` including its escape path: the
message is assembled and the attachment loop runs before the `try` block
of the source, so an exception raised while reading an attachment file
that passed the `isfile` check escapes the call (`.error`); otherwise the
session runs under the try/except exactly as in `send_email` and a
boolean outcome is returned (`.ok`). -/
def send_email_run (self : EmailSender) (fs : FallibleFS) (beh : SmtpOp → Option SmtpExc)
    (to_emails : StrArg) (subject : Str) (body : Str) (html : Bool)
    (attachments : Option (List Str)) (cc : Option StrArg) (bcc : Option StrArg) :
    Except OsErr SendOutcome :=
  let to0 := strArgList to_emails
  let hs := [(cs "From", self.email), (cs "To", joinComma to0), (cs "Subject", subject)]
  let hs1 := match activeList cc with
    | some ccL => hs ++ [(cs "Cc", joinComma ccL)]
    | none => hs
  let to1 := match activeList cc with
    | some ccL => to0 ++ ccL
    | none => to0
  let to2 := match activeList bcc with
    | some bccL => to1 ++ bccL
    | none => to1
  let bodyPart := if html then MimePart.text body (cs "html") else MimePart.text body (cs "plain")
  match attachPhase fs attachments with
  | .error e => .error e
  | .ok attParts =>
    let msg : MimeMessage := { headers := hs1, parts := bodyPart :: attParts }
    let ops :=
      if self.smtp_port = 465 then
        [SmtpOp.connectSSL self.smtp_server self.smtp_port,
         SmtpOp.login self.email self.password,
         SmtpOp.sendmail self.email to2 msg]
      else
        [SmtpOp.connect self.smtp_server self.smtp_port,
         SmtpOp.ehlo, SmtpOp.starttls, SmtpOp.ehlo,
         SmtpOp.login self.email self.password,
         SmtpOp.sendmail self.email to2 msg]
    let tr := runOps beh ops
    let fin := match tr.2 with
      | none => (true, ([] : List Str))
      | some e => (false, errorLines e)
    .ok { result := fin.1, message := msg, toEmailsFinal := to2, attempted := tr.1,
          printed := fin.2 }

/-- A filesystem on which every path exists but every read raises
PermissionError. -/
def deniedFS : FallibleFS :=
  { isfile := fun _ => true,
    readBytes := fun _ => .error (.osError (cs "Permission denied")) }

/-! ## Helper lemmas -/

theorem isPrefixOf_append_self (pre tail : Str) : pre.isPrefixOf (pre ++ tail) = true := by
  induction pre with
  | nil => simp [List.isPrefixOf]
  | cons c rest ih => simp [List.isPrefixOf, ih]

theorem optOr_none_left {α : Type} (b : Option α) : optOr none b = b := rfl

theorem dictGet_nil {α : Type} (key : Str) : dictGet ([] : List (Str × α)) key = none := rfl

theorem dictGetLast_nil {α : Type} (key : Str) :
    dictGetLast ([] : List (Str × α)) key = none := rfl

theorem dictGet_dictSet {α : Type} (d : List (Str × α)) (k : Str) (v : α) (key : Str) :
    dictGet (dictSet d k v) key = if k = key then some v else dictGet d key := by
  induction d with
  | nil => simp [dictSet, dictGet]
  | cons hd tl ih =>
    obtain ⟨k', v'⟩ := hd
    by_cases hk : k' = k
    · subst hk
      by_cases hkey : k' = key <;> simp [dictSet, dictGet, hkey]
    · by_cases hkey : k' = key
      · subst hkey
        have hk2 : ¬(k = k') := fun h => hk h.symm
        simp [dictSet, dictGet, hk, hk2]
      · simp [dictSet, dictGet, hk, hkey, ih]

theorem dictGet_dictUpdate {α : Type} (a b : List (Str × α)) (key : Str) :
    dictGet (dictUpdate a b) key = optOr (dictGetLast b key) (dictGet a key) := by
  induction b generalizing a with
  | nil => simp [dictUpdate, dictGetLast, optOr]
  | cons hd tl ih =>
    obtain ⟨k, v⟩ := hd
    show dictGet (dictUpdate (dictSet a k v) tl) key = _
    rw [ih]
    rw [dictGet_dictSet]
    show _ = optOr (match dictGetLast tl key with
      | some w => some w
      | none => if k = key then some v else none) (dictGet a key)
    cases hgl : dictGetLast tl key with
    | some w => simp [optOr]
    | none =>
      by_cases hk : k = key
      · simp [optOr, hk]
      · simp [optOr, hk]

theorem optOr_none_right {α : Type} (a : Option α) : optOr a none = a := by
  cases a <;> simp [optOr]

theorem runOps_attempted_all (beh : SmtpOp → Option SmtpExc) (ops : List SmtpOp) :
    (runOps beh ops).1.all (fun op => (beh op).isNone) = ((runOps beh ops).2).isNone := by
  induction ops with
  | nil => simp [runOps]
  | cons op rest ih =>
    cases hb : beh op with
    | some e => simp [runOps, hb]
    | none => simp [runOps, hb, ih]

theorem runOps_success (beh : SmtpOp → Option SmtpExc) (ops : List SmtpOp)
    (h : ∀ op, beh op = none) : runOps beh ops = (ops, none) := by
  induction ops with
  | nil => rfl
  | cons op rest ih => simp [runOps, h op, ih]

theorem errorLines_ne_nil (e : SmtpExc) : errorLines e ≠ [] := by
  cases e <;> simp [errorLines]

theorem attachLoop_filter (fs : FileSystem) (atts : List Str) :
    attachLoop fs (atts.filter fs.isfile) = attachLoop fs atts := by
  induction atts with
  | nil => rfl
  | cons p rest ih =>
    cases hp : fs.isfile p with
    | true => simp [List.filter_cons, hp, attachLoop, ih]
    | false => simp [List.filter_cons, hp, attachLoop, ih]

theorem replaceFuel_not_occurs (p : Char) (ps rep : Str) (fuel : Nat) (s : Str)
    (h : occursIn (p :: ps) s = false) : replaceFuel p ps rep fuel s = s := by
  induction fuel generalizing s with
  | zero => rfl
  | succ n ih =>
    cases s with
    | nil => rfl
    | cons c rest =>
      simp only [occursIn, Bool.or_eq_false_iff] at h
      simp only [replaceFuel, h.1, Bool.false_eq_true, if_false]
      rw [ih rest h.2]

theorem replaceAll_not_occurs (s pat rep : Str) (h : occursIn pat s = false) :
    replaceAll s pat rep = s := by
  cases pat with
  | nil => rfl
  | cons p ps => exact replaceFuel_not_occurs p ps rep s.length s h

/-! ## Claim theorems -/

/-- Claim C2, counterexample: `load_from_json` given `smtp_port` as the
non-numeric string `"abc"` keeps the key, bound to the original string —
the claim that the key is absent from the resulting fragment fails. -/
theorem claim_C2_counterexample :
    dictGet (load_from_json (.obj [(cs "smtp_port", CVal.s (cs "abc"))])) (cs "smtp_port")
        = some (CVal.s (cs "abc"))
    ∧ ¬ dictGet (load_from_json (.obj [(cs "smtp_port", CVal.s (cs "abc"))])) (cs "smtp_port")
        = none := by
  decide

/-- Claim C2, amended: `smtp_port` supplied as the numeric string `"587"`
becomes the integer 587 in all four sources, while the non-numeric value
`"abc"` is dropped only by the environment loader — the JSON, INI and
dotenv loaders keep it in the fragment as the original string. -/
theorem claim_C2_amended :
    dictGet (load_from_env
        (fun k => if k = cs "EMAIL_SMTP_PORT" then some (cs "587") else none) (cs "EMAIL_"))
        (cs "smtp_port") = some (CVal.i 587)
    ∧ dictGet (load_from_env
        (fun k => if k = cs "EMAIL_SMTP_PORT" then some (cs "abc") else none) (cs "EMAIL_"))
        (cs "smtp_port") = none
    ∧ dictGet (load_from_json (.obj [(cs "smtp_port", CVal.s (cs "587"))])) (cs "smtp_port")
        = some (CVal.i 587)
    ∧ dictGet (load_from_json (.obj [(cs "smtp_port", CVal.s (cs "abc"))])) (cs "smtp_port")
        = some (CVal.s (cs "abc"))
    ∧ dictGet (load_from_ini (.sections [(cs "email", [(cs "smtp_port", cs "587")])])
        (cs "email")) (cs "smtp_port") = some (CVal.i 587)
    ∧ dictGet (load_from_ini (.sections [(cs "email", [(cs "smtp_port", cs "abc")])])
        (cs "email")) (cs "smtp_port") = some (CVal.s (cs "abc"))
    ∧ dictGet (load_from_dotenv (.lines [cs "EMAIL_SMTP_PORT=587"]) (cs "EMAIL_"))
        (cs "smtp_port") = some (CVal.i 587)
    ∧ dictGet (load_from_dotenv (.lines [cs "EMAIL_SMTP_PORT=abc"]) (cs "EMAIL_"))
        (cs "smtp_port") = some (CVal.s (cs "abc")) := by
  decide

/-- Claim C3: `get_config` merges INI, then dotenv, then JSON, then
environment, later sources overwriting earlier ones key by key — for
every key, the merged value is the environment fragment's value when
present, else the JSON fragment's, else the dotenv fragment's, else the
INI fragment's. -/
theorem claim_C3_priority (srcs : ConfigSources) (pre sec key : Str) :
    dictGet (get_config srcs pre sec) key =
      optOr (dictGetLast (load_from_env srcs.env pre) key)
        (optOr (dictGetLast (fragOf srcs.jsonSrc load_from_json) key)
          (optOr (dictGetLast (fragOf srcs.dotenvSrc (fun s => load_from_dotenv s pre)) key)
            (dictGetLast (fragOf srcs.iniSrc (fun s => load_from_ini s sec)) key))) := by
  obtain ⟨env, js, ini, de⟩ := srcs
  cases js <;> cases ini <;> cases de <;>
    simp only [get_config, fragOf, dictGet_dictUpdate, dictGet_nil, dictGetLast_nil,
      optOr_none_left, optOr_none_right]

/-- Claim C8, counterexample: a file whose bytes do not decode raises
UnicodeDecodeError out of each of the three file-based loaders — caught
by none of their except clauses — so the loaders are not total as the
claim states. -/
theorem claim_C8_counterexample :
    load_from_json_run .undecodable = .error DecodeErr.unicodeDecodeError
    ∧ load_from_ini_run .undecodable (cs "email") = .error DecodeErr.unicodeDecodeError
    ∧ load_from_dotenv_run .undecodable (cs "EMAIL_") = .error DecodeErr.unicodeDecodeError :=
  ⟨rfl, rfl, rfl⟩

/-- Claim C8, amended: each loader yields an empty fragment — without
raising — on a missing file, an unreadable file (IOError), a parse
failure its except clause catches (JSONDecodeError, configparser.Error),
absent environment variables, or a missing INI section, and on every
decodable file the run-level loader returns normally; but a file whose
bytes do not decode raises UnicodeDecodeError out of all three
file-based loaders. -/
theorem claim_C8_amended :
    (load_from_json_run (.readable .missing) = .ok []
      ∧ load_from_json_run (.readable .invalid) = .ok [])
    ∧ (∀ sec, load_from_ini_run (.readable .missing) sec = .ok []
        ∧ load_from_ini_run (.readable .invalid) sec = .ok [])
    ∧ (∀ ss sec, dictGet ss sec = none →
        load_from_ini_run (.readable (.sections ss)) sec = .ok [])
    ∧ (∀ pre, load_from_dotenv_run (.readable .missing) pre = .ok []
        ∧ load_from_dotenv_run (.readable .ioError) pre = .ok [])
    ∧ (∀ pre, load_from_env (fun _ => none) pre = [])
    ∧ (∀ src, load_from_json_run (.readable src) = .ok (load_from_json src))
    ∧ (∀ src sec, load_from_ini_run (.readable src) sec = .ok (load_from_ini src sec))
    ∧ (∀ src pre, load_from_dotenv_run (.readable src) pre = .ok (load_from_dotenv src pre))
    ∧ load_from_json_run .undecodable = .error DecodeErr.unicodeDecodeError
    ∧ (∀ sec, load_from_ini_run .undecodable sec = .error DecodeErr.unicodeDecodeError)
    ∧ (∀ pre, load_from_dotenv_run .undecodable pre = .error DecodeErr.unicodeDecodeError) := by
  refine ⟨⟨rfl, rfl⟩, fun _ => ⟨rfl, rfl⟩, ?_, fun _ => ⟨rfl, rfl⟩, fun _ => rfl,
    fun _ => rfl, fun _ _ => rfl, fun _ _ => rfl, rfl, fun _ => rfl, fun _ => rfl⟩
  intro ss sec h
  dsimp only [load_from_ini_run]
  simp [load_from_ini, h]

/-- Claim C8, witness: an INI file whose only section is not the
requested one yields the empty fragment without raising. -/
theorem claim_C8_witness :
    load_from_ini_run (.readable (IniSource.sections [(cs "smtp", [(cs "email", cs "a@b.c")])]))
      (cs "email") = .ok [] :=
  claim_C8_amended.2.2.1 _ _ (by decide)

/-- Claim C9: `load_from_dotenv` reads `KEY=value` and `KEY:value` lines,
skips blank lines and lines starting with `#`, keeps only keys bearing
the prefix (stripping it, lower-casing the remainder and renaming
`address` to `email`), and ignores unprefixed keys; in particular
`EMAIL_ADDRESS=x@y.com` yields `email = "x@y.com"` and `FOO=bar` is
ignored under the prefix `EMAIL_`. -/
theorem claim_C9_dotenv :
    load_from_dotenv (.lines [cs "EMAIL_ADDRESS=x@y.com"]) (cs "EMAIL_")
        = [(cs "email", CVal.s (cs "x@y.com"))]
    ∧ load_from_dotenv (.lines [cs "FOO=bar"]) (cs "EMAIL_") = []
    ∧ load_from_dotenv
        (.lines [cs "", cs "# note", cs "   ", cs "EMAIL_SMTP_SERVER:smtp.example.com"])
        (cs "EMAIL_")
        = [(cs "smtp_server", CVal.s (cs "smtp.example.com"))]
    ∧ (∀ pre c raw, pyStrip raw = [] → dotenvStep pre c raw = c)
    ∧ (∀ pre c raw, (pyStrip raw).head? = some '#' → dotenvStep pre c raw = c)
    ∧ (∀ pre c tail v, dotenvKey pre c (pre ++ tail) v =
        dictSet c (if pyLower tail = cs "address" then cs "email" else pyLower tail) (CVal.s v))
    ∧ (∀ pre c k v, pre.isPrefixOf k = false → dotenvKey pre c k v = c) := by
  refine ⟨by decide, by decide, by decide, ?_, ?_, ?_, ?_⟩
  · intro pre c raw h
    simp [dotenvStep, h]
  · intro pre c raw h
    cases hl : pyStrip raw with
    | nil => rw [hl] at h; cases h
    | cons c0 t =>
      rw [hl] at h
      simp only [List.head?, Option.some.injEq] at h
      subst h
      simp [dotenvStep, hl]
  · intro pre c tail v
    simp [dotenvKey, isPrefixOf_append_self, List.drop_left]
  · intro pre c k v h
    simp [dotenvKey, h]

/-- Claim C9, witness: a whitespace-only line, a comment line, and an
unprefixed key each leave the accumulated fragment unchanged. -/
theorem claim_C9_witness :
    dotenvStep (cs "EMAIL_") [] (cs "   ") = []
    ∧ dotenvStep (cs "EMAIL_") [] (cs " # note") = []
    ∧ dotenvKey (cs "EMAIL_") [] (cs "FOO") (cs "bar") = [] :=
  ⟨claim_C9_dotenv.2.2.2.1 _ _ _ (by decide),
   claim_C9_dotenv.2.2.2.2.1 _ _ _ (by decide),
   claim_C9_dotenv.2.2.2.2.2.2 _ _ _ _ (by decide)⟩

theorem runOps_report (beh : SmtpOp → Option SmtpExc) (ops : List SmtpOp) :
    ((match (runOps beh ops).2 with
        | none => (true, ([] : List Str))
        | some e => (false, errorLines e)).1 = true
      ↔ (runOps beh ops).1.all (fun op => (beh op).isNone) = true)
    ∧ ((match (runOps beh ops).2 with
        | none => (true, ([] : List Str))
        | some e => (false, errorLines e)).1 = false
      → (match (runOps beh ops).2 with
        | none => (true, ([] : List Str))
        | some e => (false, errorLines e)).2 ≠ [])
    ∧ ((match (runOps beh ops).2 with
        | none => (true, ([] : List Str))
        | some e => (false, errorLines e)).1 = true
      → (match (runOps beh ops).2 with
        | none => (true, ([] : List Str))
        | some e => (false, errorLines e)).2 = []) := by
  have hall := runOps_attempted_all beh ops
  cases hr : (runOps beh ops).2 with
  | none =>
    rw [hr] at hall
    simp only [Option.isNone_none] at hall
    simp [hall]
  | some e =>
    rw [hr] at hall
    simp only [Option.isNone_some] at hall
    simp [hall, errorLines_ne_nil e]

/-- Claim C4, counterexample: on an existing attachment file whose read
raises PermissionError, a concrete `send_email` call lets the exception
escape to the caller — the attachment loop sits before the `try` block —
contradicting the claim that no exception ever escapes. -/
theorem claim_C4_counterexample :
    send_email_run sampleSender587 deniedFS behOk (.one (cs "r@y.z")) (cs "S") (cs "B") false
      (some [cs "report.pdf"]) none none
      = .error (OsErr.osError (cs "Permission denied")) :=
  rfl

/-- Claim C4, amended: every transport failure is caught inside
`send_email` — whenever every attachment read succeeds the call returns
a boolean outcome whose result is `true` exactly when every attempted
network operation succeeded, `false` always coming with printed
human-readable error lines; but an exception raised while reading an
attachment file that passed the `isfile` check occurs before the `try`
block and escapes to the caller. -/
theorem claim_C4_amended (self : EmailSender) (fs : FallibleFS)
    (beh : SmtpOp → Option SmtpExc) (rcpt : StrArg) (subject body : Str) (html : Bool)
    (atts : Option (List Str)) (cc bcc : Option StrArg) :
    (∀ e, attachPhase fs atts = .error e →
      send_email_run self fs beh rcpt subject body html atts cc bcc = .error e)
    ∧ (∀ parts, attachPhase fs atts = .ok parts →
        ∃ o, send_email_run self fs beh rcpt subject body html atts cc bcc = .ok o)
    ∧ (∀ o, send_email_run self fs beh rcpt subject body html atts cc bcc = .ok o →
        (o.result = true ↔ o.attempted.all (fun op => (beh op).isNone) = true)
        ∧ (o.result = false → o.printed ≠ [])
        ∧ (o.result = true → o.printed = [])) := by
  refine ⟨?_, ?_, ?_⟩
  · intro e he
    dsimp only [send_email_run]
    rw [he]
  · intro parts hp
    dsimp only [send_email_run]
    rw [hp]
    exact ⟨_, rfl⟩
  · intro o ho
    dsimp only [send_email_run] at ho
    cases hp : attachPhase fs atts with
    | error e =>
      rw [hp] at ho
      cases ho
    | ok parts =>
      rw [hp] at ho
      simp only [Except.ok.injEq] at ho
      subst ho
      exact runOps_report beh _

/-- Claim C4, witness: a concrete call on which the attachment read
raises has the exception escape as `.error`, discharging the amended
theorem's escape conjunct at that input. -/
theorem claim_C4_witness :
    send_email_run sampleSender587 deniedFS behFail (.one (cs "r@y.z")) (cs "S") (cs "B") false
      (some [cs "secret.txt"]) none none
      = .error (OsErr.osError (cs "Permission denied")) :=
  (claim_C4_amended sampleSender587 deniedFS behFail (.one (cs "r@y.z")) (cs "S") (cs "B")
    false (some [cs "secret.txt"]) none none).1 (OsErr.osError (cs "Permission denied"))
    (by rfl)

/-- Claim C5: the transport path of `send_email` is selected solely by
the configured port — port 465 opens an implicit-SSL connection and any
other port opens a plaintext connection, handshakes, upgrades via
STARTTLS and handshakes again; both paths then authenticate with the
stored address and credential before transmitting the envelope. -/
theorem claim_C5_transport (self : EmailSender) (fs : FileSystem)
    (beh : SmtpOp → Option SmtpExc) (rcpt : StrArg) (subject body : Str) (html : Bool)
    (atts : Option (List Str)) (cc bcc : Option StrArg)
    (hsucc : ∀ op, beh op = none) :
    (self.smtp_port = 465 →
      (send_email self fs beh rcpt subject body html atts cc bcc).attempted
        = [SmtpOp.connectSSL self.smtp_server self.smtp_port,
           SmtpOp.login self.email self.password,
           SmtpOp.sendmail self.email
             (send_email self fs beh rcpt subject body html atts cc bcc).toEmailsFinal
             (send_email self fs beh rcpt subject body html atts cc bcc).message])
    ∧ (self.smtp_port ≠ 465 →
      (send_email self fs beh rcpt subject body html atts cc bcc).attempted
        = [SmtpOp.connect self.smtp_server self.smtp_port, SmtpOp.ehlo, SmtpOp.starttls,
           SmtpOp.ehlo, SmtpOp.login self.email self.password,
           SmtpOp.sendmail self.email
             (send_email self fs beh rcpt subject body html atts cc bcc).toEmailsFinal
             (send_email self fs beh rcpt subject body html atts cc bcc).message]) := by
  constructor
  · intro h465
    dsimp only [send_email]
    rw [if_pos h465, runOps_success beh _ hsucc]
  · intro hother
    dsimp only [send_email]
    rw [if_neg hother, runOps_success beh _ hsucc]

/-- Claim C5, witness: with all-success transport behaviour, a sender on
port 465 attempts exactly the SSL session and a sender on port 587
attempts exactly the STARTTLS session. -/
theorem claim_C5_witness :
    (send_email sampleSender465 emptyFS behOk (.one (cs "r@y.z")) (cs "S") (cs "B") false
        none none none).attempted
      = [SmtpOp.connectSSL (cs "smtp.example.com") 465,
         SmtpOp.login (cs "a@b.c") (cs "pw"),
         SmtpOp.sendmail (cs "a@b.c")
           (send_email sampleSender465 emptyFS behOk (.one (cs "r@y.z")) (cs "S") (cs "B")
             false none none none).toEmailsFinal
           (send_email sampleSender465 emptyFS behOk (.one (cs "r@y.z")) (cs "S") (cs "B")
             false none none none).message]
    ∧ (send_email sampleSender587 emptyFS behOk (.one (cs "r@y.z")) (cs "S") (cs "B") false
        none none none).attempted
      = [SmtpOp.connect (cs "smtp.example.com") 587, SmtpOp.ehlo, SmtpOp.starttls,
         SmtpOp.ehlo, SmtpOp.login (cs "a@b.c") (cs "pw"),
         SmtpOp.sendmail (cs "a@b.c")
           (send_email sampleSender587 emptyFS behOk (.one (cs "r@y.z")) (cs "S") (cs "B")
             false none none none).toEmailsFinal
           (send_email sampleSender587 emptyFS behOk (.one (cs "r@y.z")) (cs "S") (cs "B")
             false none none none).message] :=
  ⟨(claim_C5_transport sampleSender465 emptyFS behOk (.one (cs "r@y.z")) (cs "S") (cs "B")
      false none none none (fun _ => rfl)).1 rfl,
   (claim_C5_transport sampleSender587 emptyFS behOk (.one (cs "r@y.z")) (cs "S") (cs "B")
      false none none none (fun _ => rfl)).2 (by decide)⟩

/-- Claim C6: the transmitted envelope recipient list is primary ++ CC ++
BCC, while the message headers carry `From` = sender address, `To` = the
comma-joined primary recipients only, `Subject` = the literal subject, a
`Cc` header exactly when CC is present — and the message (headers
included) is independent of BCC, so no header ever carries a BCC
recipient. -/
theorem claim_C6_headers (self : EmailSender) (fs : FileSystem)
    (beh : SmtpOp → Option SmtpExc) (rcpt : StrArg) (subject body : Str) (html : Bool)
    (atts : Option (List Str)) (cc bcc : Option StrArg) :
    ((send_email self fs beh rcpt subject body html atts cc bcc).toEmailsFinal
      = strArgList rcpt ++ (activeList cc).getD [] ++ (activeList bcc).getD [])
    ∧ dictGet (send_email self fs beh rcpt subject body html atts cc bcc).message.headers
        (cs "From") = some self.email
    ∧ dictGet (send_email self fs beh rcpt subject body html atts cc bcc).message.headers
        (cs "To") = some (joinComma (strArgList rcpt))
    ∧ dictGet (send_email self fs beh rcpt subject body html atts cc bcc).message.headers
        (cs "Subject") = some subject
    ∧ (∀ ccL, activeList cc = some ccL →
        dictGet (send_email self fs beh rcpt subject body html atts cc bcc).message.headers
          (cs "Cc") = some (joinComma ccL))
    ∧ (activeList cc = none →
        dictGet (send_email self fs beh rcpt subject body html atts cc bcc).message.headers
          (cs "Cc") = none)
    ∧ (send_email self fs beh rcpt subject body html atts cc bcc).message
        = (send_email self fs beh rcpt subject body html atts cc none).message := by
  rcases hcc : activeList cc with _ | ccL <;> rcases hbcc : activeList bcc with _ | bccL <;>
    refine ⟨?_, ?_, ?_, ?_, ?_, ?_, ?_⟩ <;>
    simp +decide [send_email, hcc, hbcc, dictGet, List.append_assoc]

/-- Claim C6, witness: with a CC recipient present, the `Cc` header of a
concrete call carries exactly the comma-joined CC list. -/
theorem claim_C6_witness :
    dictGet (send_email sampleSender587 emptyFS behOk (.one (cs "r@y.z")) (cs "S") (cs "B")
        false none (some (.one (cs "c@y.z"))) none).message.headers (cs "Cc")
      = some (joinComma [cs "c@y.z"]) :=
  (claim_C6_headers sampleSender587 emptyFS behOk (.one (cs "r@y.z")) (cs "S") (cs "B")
    false none (some (.one (cs "c@y.z"))) none).2.2.2.2.1 [cs "c@y.z"] (by decide)

/-- Claim C7: `send_template_email` computes the body by literal
substring substitution of each placeholder (a brace-wrapped variable
name) with its value, in variable order, and delegates to `send_email`
with that body; variables whose placeholder does not occur leave the
template unchanged (so unresolved placeholders pass through verbatim and
unmatched variables are ignored), and `Hi {name}` with `name = Bo` plus
an unused variable yields `Hi Bo`. -/
theorem claim_C7_template :
    (∀ self fs beh rcpt subject template vars html atts cc bcc,
      send_template_email self fs beh rcpt subject template vars html atts cc bcc
        = send_email self fs beh rcpt subject (substituteVars template vars) html atts cc bcc)
    ∧ (∀ template vars,
        (∀ kv ∈ vars, occursIn (cs "\x7b" ++ kv.1 ++ cs "\x7d") template = false) →
        substituteVars template vars = template)
    ∧ substituteVars (cs "Hi \x7bname\x7d") [(cs "name", cs "Bo"), (cs "unused", cs "Z")]
        = cs "Hi Bo" := by
  refine ⟨fun _ _ _ _ _ _ _ _ _ _ _ => rfl, ?_, by decide⟩
  intro template vars
  induction vars with
  | nil => intro _; rfl
  | cons kv rest ih =>
    intro h
    have hstep : replaceAll template (cs "\x7b" ++ kv.1 ++ cs "\x7d") kv.2 = template :=
      replaceAll_not_occurs _ _ _ (h kv (List.mem_cons_self kv rest))
    show List.foldl _ (replaceAll template (cs "\x7b" ++ kv.1 ++ cs "\x7d") kv.2) rest
      = template
    rw [hstep]
    exact ih (fun kv2 hm => h kv2 (List.mem_cons_of_mem _ hm))

/-- Claim C7, witness: a placeholder with no matching variable is left
verbatim and a variable with no matching placeholder is ignored. -/
theorem claim_C7_witness :
    substituteVars (cs "Hello \x7bwho\x7d") [(cs "name", cs "Bo")] = cs "Hello \x7bwho\x7d" :=
  claim_C7_template.2.1 (cs "Hello \x7bwho\x7d") [(cs "name", cs "Bo")] (by decide)

/-- Claim C10: when `to_emails` is passed as a list, the caller's list —
whose final value `toEmailsFinal` models, since `extend` mutates it in
place — ends as the original primary recipients followed by the CC
entries and then the BCC entries. -/
theorem claim_C10_callerList (self : EmailSender) (fs : FileSystem)
    (beh : SmtpOp → Option SmtpExc) (primary : List Str) (subject body : Str) (html : Bool)
    (atts : Option (List Str)) (cc bcc : Option StrArg) :
    (send_email self fs beh (.many primary) subject body html atts cc bcc).toEmailsFinal
      = primary ++ (activeList cc).getD [] ++ (activeList bcc).getD [] := by
  rcases hcc : activeList cc with _ | ccL <;> rcases hbcc : activeList bcc with _ | bccL <;>
    simp [send_email, hcc, hbcc, strArgList, List.append_assoc]

/-- Claim C1, counterexample: with a filesystem on which the attachment
path does not exist and an all-success transport, `send_email` returns
`true` and attempts network operations — the send is neither aborted nor
failed, contradicting the claim. -/
theorem claim_C1_counterexample :
    (send_email sampleSender587 emptyFS behOk (.one (cs "r@y.z")) (cs "S") (cs "B") false
        (some [cs "missing.txt"]) none none).result = true
    ∧ (send_email sampleSender587 emptyFS behOk (.one (cs "r@y.z")) (cs "S") (cs "B") false
        (some [cs "missing.txt"]) none none).attempted ≠ [] := by
  decide

/-- Claim C1, amended: a nonexistent attachment path does not fail the
send — `send_email` silently skips every missing path and the call's
entire outcome equals that of the same call with the missing paths
removed from the attachment list. -/
theorem claim_C1_amended (self : EmailSender) (fs : FileSystem)
    (beh : SmtpOp → Option SmtpExc) (rcpt : StrArg) (subject body : Str) (html : Bool)
    (atts : List Str) (cc bcc : Option StrArg) :
    send_email self fs beh rcpt subject body html (some atts) cc bcc
      = send_email self fs beh rcpt subject body html (some (atts.filter fs.isfile)) cc bcc := by
  dsimp only [send_email]
  rw [attachLoop_filter]
